import Mathlib

/-!
Verification development for the module entry layer of a Python ODBC adapter
(`pyodbcmodule.cpp`): the connection-string builder `mod_connect`, the lazy
environment-handle allocator `AllocateEnv`, the locale initializer
`init_locale_info`, the exception-taxonomy registration `CreateExceptions`,
and the data-source enumerator `mod_datasources`.

The C code is shallowly embedded: CPython objects become an inductive value
type carrying the outcome of the coercions the module applies to them, the
driver manager becomes an explicit script of status codes, and fallible code
returns `Except`.
-/

set_option autoImplicit false

deriving instance DecidableEq for Except

namespace Pyodbc

/--
Model of the CPython object values reaching the module entry points.
`str` is a unicode object, `pybool b` one of the two interned boolean
singletons (`pybool true` is the unique `Py_True` object), `int` an integer
object; `exotic` stands for any other object, carrying the outcomes of the
two coercions the module applies to keyword values: the `truth` field is the
result of `PyObject_IsTrue` and `toLong` the result of `PyLong_AsLong`,
`none` meaning the C call returns its error sentinel with an exception set.
-/
inductive PyObj where
  | str (s : String)
  | pybool (b : Bool)
  | int (n : Int)
  | exotic (truth : Option Bool) (toLong : Option Int)
deriving DecidableEq

/-- `PyUnicode_Check`: only unicode (string) objects pass. -/
def PyUnicode_Check : PyObj → Bool
  | .str _ => true
  | _ => false

/-- `PyObject_IsTrue`: truthiness of an object; `none` models the -1 error
return with an exception set. -/
def PyObject_IsTrue : PyObj → Option Bool
  | .str s => some (decide (s ≠ ""))
  | .pybool b => some b
  | .int n => some (decide (n ≠ 0))
  | .exotic t _ => t

/-- `PyLong_AsLong`: integer coercion; `none` models the error return with an
exception set (e.g. a `TypeError` for a non-numeric object). -/
def PyLong_AsLong : PyObj → Option Int
  | .str _ => none
  | .pybool b => some (if b then 1 else 0)
  | .int n => some n
  | .exotic _ l => l

/-- The static `keywordmaps` table: DB API recommended keyword names mapped
to the ODBC names. -/
def keywordmaps : List (String × String) :=
  [("user", "uid"), ("password", "pwd"), ("host", "server")]

/-- The remap loop of `mod_connect`: the key is compared (exact,
case-sensitive) against each `oldname` in table order and replaced by the
first matching `newname`; an unmatched key passes through unchanged. -/
def remapKey (k : String) : String :=
  match keywordmaps.find? (fun m => m.1 = k) with
  | some m => m.2
  | none => k

/-- State threaded through the keyword loop of `mod_connect`: the
accumulating connection string `cstring`, the `fAutoCommit` int (the raw
result of `PyObject_IsTrue`, so `-1` after a failed truth test), the
`timeout` long, and `err`, the thread's error-indicator flag
(`PyErr_Occurred`), set when a C API call fails without an immediate
return. -/
structure ConnState where
  cstring : String
  fAutoCommit : Int
  timeout : Int
  err : Bool
deriving DecidableEq

/-- How a `mod_connect` call fails: `typeError msg` models an explicit
`PyErr_SetString`/`PyErr_Format`/`RaiseError` with `PyExc_TypeError` and the
given message; `pending` models `return 0` taken because the error indicator
is set (the `PyErr_Occurred` check after `PyLong_AsLong`). -/
inductive ConnErr where
  | typeError (msg : String)
  | pending
deriving DecidableEq

/-- One iteration of the `PyDict_Next` loop in `mod_connect`, applied to a
keyword `(key, value)` pair. -/
def connectStep (st : ConnState) (kv : String × PyObj) : Except ConnErr ConnState :=
  if kv.1 = "autocommit" then
    match PyObject_IsTrue kv.2 with
    | some b => .ok { st with fAutoCommit := if b then 1 else 0 }
    | none => .ok { st with fAutoCommit := -1, err := true }
  else if kv.1 = "timeout" then
    match PyLong_AsLong kv.2 with
    | some n => if st.err then .error .pending else .ok { st with timeout := n }
    | none => .error .pending
  else
    match kv.2 with
    | .str v =>
      let frag := remapKey kv.1 ++ "=" ++ v
      .ok { st with cstring := if st.cstring = "" then frag else st.cstring ++ ";" ++ frag }
    | _ => .error (.typeError ("The value for keyword '" ++ kv.1 ++ "' is not a string'"))

/-- The keyword loop of `mod_connect`, in input (insertion) order. -/
def connectLoop (st : ConnState) : List (String × PyObj) → Except ConnErr ConnState
  | [] => .ok st
  | kv :: rest =>
    match connectStep st kv with
    | .ok st' => connectLoop st' rest
    | .error e => .error e

/-- The triple handed to `Connection_New`: the assembled connection string,
`fAutoCommit != 0`, and the timeout. -/
structure ConnectRequest where
  cstring : String
  autocommit : Bool
  timeout : Int
deriving DecidableEq

/-- Outcome of a `mod_connect` call: its result and whether the process-wide
environment handle was allocated (i.e. `AllocateEnv` was reached) during the
call. -/
structure ConnectOutcome where
  result : Except ConnErr ConnectRequest
  envAllocated : Bool
deriving DecidableEq

/-- Handling of the positional argument tuple of `mod_connect`: more than one
positional argument is rejected first; a single positional argument must be a
unicode string and seeds the connection string; no positional argument leaves
it empty. -/
def argsInit : List PyObj → Except ConnErr String
  | [] => .ok ""
  | [PyObj.str s] => .ok s
  | [_] => .error (.typeError "argument 1 must be a string")
  | _ => .error (.typeError "function takes at most 1 non-keyword argument")

/-- `mod_connect`: validate the positional arguments, run the keyword loop,
reject an empty connection string, then (and only then) allocate the
environment handle if it does not exist yet, and build the connection
request.  `henvIsNull` is the state of the global `henv` at entry. -/
def mod_connect (args : List PyObj) (kwargs : List (String × PyObj))
    (henvIsNull : Bool) : ConnectOutcome :=
  match argsInit args with
  | .error e => ⟨.error e, false⟩
  | .ok init =>
    match connectLoop ⟨init, 0, 0, false⟩ kwargs with
    | .error e => ⟨.error e, false⟩
    | .ok st =>
      if st.cstring = "" then
        ⟨.error (.typeError "no connection information was passed"), false⟩
      else
        ⟨.ok ⟨st.cstring, st.fAutoCommit != 0, st.timeout⟩, henvIsNull⟩

/-! ## Locale numeric state (`init_locale_info`) -/

/-- The dictionary returned by `locale.localeconv()`, restricted to the three
keys the initializer reads; `none` models an absent or non-unicode entry. -/
structure LocaleConv where
  decimal_point : Option String
  thousands_sep : Option String
  currency_symbol : Option String
deriving DecidableEq

/-- The three process-wide characters set by `init_locale_info`. -/
structure LocaleState where
  chDecimal : Char
  chGroupSeparator : Char
  chCurrencySymbol : Char
deriving DecidableEq

/-- The compiled-in defaults for the locale characters. -/
def defaultLocaleState : LocaleState := ⟨'.', ',', '$'⟩

/-- The `PyUnicode_GET_SIZE(value) == 1` guard together with taking
`PyUnicode_AsUnicode(value)[0]`: accept exactly the one-character strings. -/
def oneChar (s : String) : Option Char :=
  match s.data with
  | [c] => some c
  | _ => none

/-- `init_locale_info`: starting from the defaults, accept each reported
locale value only if it is a one-character string; if the accepted group
separator is the null character, replace it by `'.'` when the decimal point
(as resolved by the preceding step) is `','` and by `','` otherwise.  The
argument is `none` when importing `locale` or calling `localeconv` fails, in
which case the defaults are kept. -/
def init_locale_info (conv : Option LocaleConv) : LocaleState :=
  match conv with
  | none => defaultLocaleState
  | some r =>
    let st0 := defaultLocaleState
    let st1 :=
      match r.decimal_point.bind oneChar with
      | some c => { st0 with chDecimal := c }
      | none => st0
    let st2 :=
      match r.thousands_sep.bind oneChar with
      | some c =>
        if c = '\x00' then
          { st1 with chGroupSeparator := if st1.chDecimal = ',' then '.' else ',' }
        else
          { st1 with chGroupSeparator := c }
      | none => st1
    match r.currency_symbol.bind oneChar with
    | some c => { st2 with chCurrencySymbol := c }
    | none => st2

/-! ## Exception taxonomy (`aExcInfos`, `CreateExceptions`) -/

/-- The ten exception class names of the taxonomy. -/
inductive ExcName where
  | Error | Warning | InterfaceError | DatabaseError | DataError
  | OperationalError | IntegrityError | InternalError | ProgrammingError
  | NotSupportedError
deriving DecidableEq

/-- The parent of a class: the host language's root exception type
(`PyExc_Exception`) or another class of the taxonomy. -/
inductive ExcParent where
  | root
  | exc (e : ExcName)
deriving DecidableEq

/-- The parent assignments of the `aExcInfos` table. -/
def excParent : ExcName → ExcParent
  | .Error => .root
  | .Warning => .root
  | .InterfaceError => .exc .Error
  | .DatabaseError => .exc .Error
  | .DataError => .exc .DatabaseError
  | .OperationalError => .exc .DatabaseError
  | .IntegrityError => .exc .DatabaseError
  | .InternalError => .exc .DatabaseError
  | .ProgrammingError => .exc .DatabaseError
  | .NotSupportedError => .exc .DatabaseError

/-- The `aExcInfos` table: the classes in registration order, each with its
parent. -/
def aExcInfos : List (ExcName × ExcParent) :=
  [(.Error, .root), (.Warning, .root),
   (.InterfaceError, .exc .Error), (.DatabaseError, .exc .Error),
   (.DataError, .exc .DatabaseError), (.OperationalError, .exc .DatabaseError),
   (.IntegrityError, .exc .DatabaseError), (.InternalError, .exc .DatabaseError),
   (.ProgrammingError, .exc .DatabaseError), (.NotSupportedError, .exc .DatabaseError)]

/-- All class names, for quantifying over the taxonomy. -/
def allExcNames : List ExcName :=
  [.Error, .Warning, .InterfaceError, .DatabaseError, .DataError,
   .OperationalError, .IntegrityError, .InternalError, .ProgrammingError,
   .NotSupportedError]

/-- Subclass test with fuel (the parent chains of the taxonomy have length at
most two, so fuel 10 is ample): a class is a subclass of itself and of every
ancestor along the parent chain, as `PyErr_NewException` builds it. -/
def isSubclassAux : Nat → ExcName → ExcName → Bool
  | 0, a, b => a = b
  | n + 1, a, b =>
    a = b ||
      match excParent a with
      | .root => false
      | .exc p => isSubclassAux n p b

/-- `issubclass` on the registered taxonomy. -/
def isSubclass (a b : ExcName) : Bool := isSubclassAux 10 a b

/-- Distance from a class to the root exception type along parents. -/
def rootDistAux : Nat → ExcName → Nat
  | 0, _ => 0
  | n + 1, e =>
    match excParent e with
    | .root => 0
    | .exc p => rootDistAux n p + 1

/-- Depth of a class below the root exception type. -/
def rootDist (e : ExcName) : Nat := rootDistAux 10 e

/-- `CreateExceptions`, with an injected failure point: walk the `aExcInfos`
table in order; at index `failAt` the class construction fails
(`PyDict_New`, `PyUnicode_FromString` or `PyErr_NewException` returns null)
and the function returns `false` immediately, leaving the list of class
references constructed so far untouched — the code releases only the local
`classdict`, not the previously constructed classes. -/
def createExcAux : List (ExcName × ExcParent) → Option Nat → List ExcName →
    Bool × List ExcName
  | [], _, held => (true, held)
  | _ :: _, some 0, held => (false, held)
  | info :: rest, some (n + 1), held => createExcAux rest (some n) (held ++ [info.1])
  | info :: rest, none, held => createExcAux rest none (held ++ [info.1])

/-- `CreateExceptions` over the full table, starting with no references
held. -/
def CreateExceptions (failAt : Option Nat) : Bool × List ExcName :=
  createExcAux aExcInfos failAt []

/-- The exception-registration phase of `PyInit_pyodbc`: on a
`CreateExceptions` failure the module initializer returns null immediately
(`if (!CreateExceptions()) return 0;`), without running `ErrorCleanup`, so
the references already constructed remain held. -/
def PyInit_excPhase (failAt : Option Nat) : Bool × List ExcName :=
  CreateExceptions failAt

/-! ## Environment handle allocation (`AllocateEnv`) -/

/-- The native environment calls `AllocateEnv` can issue, in order. -/
inductive EnvCall where
  | setPooling
  | allocHandle
  | setOdbcVersion
deriving DecidableEq

/-- Whether each native call of `AllocateEnv` succeeds in the driver
manager. -/
structure EnvDriver where
  setPoolingOk : Bool
  allocOk : Bool
  setVersionOk : Bool
deriving DecidableEq

/-- `AllocateEnv`: read the module-level `pooling` attribute and compare it
*by identity* with `Py_True` (`bool bPooling = pooling == Py_True`); only
then issue `SQLSetEnvAttr(SQL_ATTR_CONNECTION_POOLING, ...)`, followed by
`SQLAllocHandle` and `SQLSetEnvAttr(SQL_ATTR_ODBC_VERSION, ...)`.  Returns
whether allocation succeeded (any native failure is fatal) and the list of
native calls issued. -/
def AllocateEnv (poolingAttr : PyObj) (drv : EnvDriver) : Bool × List EnvCall :=
  let bPooling := poolingAttr = PyObj.pybool true
  if bPooling then
    if !drv.setPoolingOk then (false, [.setPooling])
    else if !drv.allocOk then (false, [.setPooling, .allocHandle])
    else if !drv.setVersionOk then (false, [.setPooling, .allocHandle, .setOdbcVersion])
    else (true, [.setPooling, .allocHandle, .setOdbcVersion])
  else
    if !drv.allocOk then (false, [.allocHandle])
    else if !drv.setVersionOk then (false, [.allocHandle, .setOdbcVersion])
    else (true, [.allocHandle, .setOdbcVersion])

/-! ## Data source enumeration (`mod_datasources`) -/

/-- Native status codes returned by `SQLDataSourcesW`. -/
inductive SQLReturn where
  | success
  | successWithInfo
  | noData
  | sqlError
deriving DecidableEq

/-- `SQL_SUCCEEDED`. -/
def SQL_SUCCEEDED : SQLReturn → Bool
  | .success => true
  | .successWithInfo => true
  | _ => false

/-- One scripted response of the driver manager to a fetch: the status code
and, when it is a success, the data source name and description written into
the out buffers. -/
structure FetchStep where
  ret : SQLReturn
  dsn : String
  desc : String
deriving DecidableEq

/-- The diagnostic record the driver manager associates with the failing
call, retrievable via the get-diagnostic call (`SQLGetDiagRec`). -/
structure DiagRec where
  sqlState : String
  nativeError : Int
  message : String
deriving DecidableEq

/-- Modelled from the spec: `RaiseErrorFromHandle` lives in `errors.cpp`,
which is not part of the visible source.  Per the spec (sections 6 and 7), a
non-success native status is reported as a failure carrying the
driver-supplied diagnostic text retrieved via the separate get-diagnostic
call, identified by the name of the failing native operation.  The failure
value is that pair (operation name, diagnostic message text). -/
def RaiseErrorFromHandle (szFunction : String) (diag : DiagRec) : String × String :=
  (szFunction, diag.message)

/-- `PyDict_SetItem` on the result dictionary: an existing key keeps its
position and gets the new value, a new key is appended. -/
def dictInsert (d : List (String × String)) (k v : String) : List (String × String) :=
  if d.any (fun kv => kv.1 = k) then
    d.map (fun kv => if kv.1 = k then (k, v) else kv)
  else
    d ++ [(k, v)]

/-- The fetch loop of `mod_datasources`: each scripted response is consumed
in order; a succeeded fetch inserts the name/description pair into the
result dictionary; the loop exits on the first non-success status, returning
the dictionary if that status is `SQL_NO_DATA` and otherwise raising via
`RaiseErrorFromHandle("SQLDataSources", ...)`.  `none` means the script was
exhausted without the driver ending the loop. -/
def datasourcesLoop (diag : DiagRec) :
    List FetchStep → List (String × String) →
    Option (Except (String × String) (List (String × String)))
  | [], _ => none
  | step :: rest, acc =>
    if SQL_SUCCEEDED step.ret then
      datasourcesLoop diag rest (dictInsert acc step.dsn step.desc)
    else if step.ret = SQLReturn.noData then
      some (.ok acc)
    else
      some (.error (RaiseErrorFromHandle "SQLDataSources" diag))

/-- `mod_datasources`, run against a scripted driver manager. -/
def mod_datasources (script : List FetchStep) (diag : DiagRec) :
    Option (Except (String × String) (List (String × String))) :=
  datasourcesLoop diag script []

/-! ## Spec-side descriptions of the assembled connection string -/

/-- The `key=value` fragment contributed by one string-valued keyword, after
remapping. -/
def mkFrag (kv : String × String) : String := remapKey kv.1 ++ "=" ++ kv.2

/-- Joining a sequence of pieces with the `;` separator, as the spec words
it. -/
def joinSemi : List String → String
  | [] => ""
  | [s] => s
  | s :: rest => s ++ ";" ++ joinSemi rest

/-- The connection string as the claim states it: the positional string, if
one was supplied, followed by the keyword fragments, all joined with `;`. -/
def claimedConnectionString (pos : Option String) (ks : List (String × String)) : String :=
  joinSemi (pos.toList ++ ks.map mkFrag)

/-- The append discipline of the code, over a list of ready-made fragments:
a fragment is appended directly when the accumulated string is empty and
with a `;` separator otherwise. -/
def appendFrags (init : String) : List String → String
  | [] => init
  | f :: rest => appendFrags (if init = "" then f else init ++ ";" ++ f) rest

/-- The fragments the keyword loop generates: reserved keywords
(`autocommit`, `timeout`) contribute none, a non-reserved string-valued
keyword contributes its remapped `key=value` fragment, and other values
contribute none (on a completed loop those do not occur: they abort it). -/
def fragStrings : List (String × PyObj) → List String
  | [] => []
  | kv :: rest =>
    if kv.1 = "autocommit" then fragStrings rest
    else if kv.1 = "timeout" then fragStrings rest
    else
      match kv.2 with
      | .str v => (remapKey kv.1 ++ "=" ++ v) :: fragStrings rest
      | _ => fragStrings rest

/-- The keyword list with the two reserved control keywords removed. -/
def dropReserved : List (String × PyObj) → List (String × PyObj)
  | [] => []
  | kv :: rest =>
    if kv.1 = "autocommit" ∨ kv.1 = "timeout" then dropReserved rest
    else kv :: dropReserved rest

/-- The update the loop applies to `fAutoCommit` at one keyword: the raw
`PyObject_IsTrue` result for an `autocommit` keyword (`-1` on a failed truth
test), no change otherwise. -/
def acUpdate (a : Int) (kv : String × PyObj) : Int :=
  if kv.1 = "autocommit" then
    match PyObject_IsTrue kv.2 with
    | some b => if b then 1 else 0
    | none => -1
  else a

/-- `fAutoCommit` after a whole keyword list. -/
def acFold (a : Int) : List (String × PyObj) → Int
  | [] => a
  | kv :: rest => acFold (acUpdate a kv) rest

/-- The update the loop applies to `timeout` at one keyword: the
`PyLong_AsLong` result for a `timeout` keyword, no change otherwise. -/
def toUpdate (t : Int) (kv : String × PyObj) : Int :=
  if kv.1 = "autocommit" then t
  else if kv.1 = "timeout" then
    match PyLong_AsLong kv.2 with
    | some n => n
    | none => t
  else t

/-- `timeout` after a whole keyword list. -/
def toFold (t : Int) : List (String × PyObj) → Int
  | [] => t
  | kv :: rest => toFold (toUpdate t kv) rest

/-- The piece a positional argument contributes under the code's append
discipline: a supplied empty string contributes nothing. -/
def posPieces (pos : Option String) : List String :=
  match pos with
  | none => []
  | some p => if p = "" then [] else [p]

/-! ## Loop lemmas -/

theorem connectLoop_ok_cstring (ks : List (String × PyObj)) :
    ∀ st st' : ConnState, connectLoop st ks = .ok st' →
      st'.cstring = appendFrags st.cstring (fragStrings ks) := by
  induction ks with
  | nil =>
    intro st st' h
    simp only [connectLoop] at h
    cases h
    rfl
  | cons kv rest ih =>
    intro st st' h
    simp only [connectLoop] at h
    by_cases hac : kv.1 = "autocommit"
    · cases hT : PyObject_IsTrue kv.2 <;>
        simp only [connectStep, if_pos hac, hT] at h <;>
        · rw [ih _ _ h]
          simp [fragStrings, if_pos hac]
    · by_cases hto : kv.1 = "timeout"
      · cases hL : PyLong_AsLong kv.2 with
        | none => simp [connectStep, if_neg hac, if_pos hto, hL] at h
        | some n =>
          simp only [connectStep, if_neg hac, if_pos hto, hL] at h
          by_cases herr : st.err
          · simp [herr] at h
          · simp only [herr, Bool.false_eq_true, if_false] at h
            rw [ih _ _ h]
            simp [fragStrings, if_neg hac, if_pos hto]
      · cases hv : kv.2 with
        | str v =>
          simp only [connectStep, if_neg hac, if_neg hto, hv] at h
          rw [ih _ _ h]
          simp [fragStrings, if_neg hac, if_neg hto, hv, appendFrags]
        | pybool b => simp [connectStep, if_neg hac, if_neg hto, hv] at h
        | int n => simp [connectStep, if_neg hac, if_neg hto, hv] at h
        | exotic t l => simp [connectStep, if_neg hac, if_neg hto, hv] at h

theorem connectLoop_ok_fields (ks : List (String × PyObj)) :
    ∀ st st' : ConnState, connectLoop st ks = .ok st' →
      st'.fAutoCommit = acFold st.fAutoCommit ks ∧
        st'.timeout = toFold st.timeout ks := by
  induction ks with
  | nil =>
    intro st st' h
    simp only [connectLoop] at h
    cases h
    exact ⟨rfl, rfl⟩
  | cons kv rest ih =>
    intro st st' h
    simp only [connectLoop] at h
    by_cases hac : kv.1 = "autocommit"
    · cases hT : PyObject_IsTrue kv.2 <;>
        simp only [connectStep, if_pos hac, hT] at h <;>
        · have := ih _ _ h
          simpa [acFold, toFold, acUpdate, toUpdate, if_pos hac, hT] using this
    · by_cases hto : kv.1 = "timeout"
      · cases hL : PyLong_AsLong kv.2 with
        | none => simp [connectStep, if_neg hac, if_pos hto, hL] at h
        | some n =>
          simp only [connectStep, if_neg hac, if_pos hto, hL] at h
          by_cases herr : st.err
          · simp [herr] at h
          · simp only [herr, Bool.false_eq_true, if_false] at h
            have := ih _ _ h
            simpa [acFold, toFold, acUpdate, toUpdate, if_neg hac, if_pos hto, hL] using this
      · cases hv : kv.2 with
        | str v =>
          simp only [connectStep, if_neg hac, if_neg hto, hv] at h
          have := ih _ _ h
          simpa [acFold, toFold, acUpdate, toUpdate, if_neg hac, if_neg hto] using this
        | pybool b => simp [connectStep, if_neg hac, if_neg hto, hv] at h
        | int n => simp [connectStep, if_neg hac, if_neg hto, hv] at h
        | exotic t l => simp [connectStep, if_neg hac, if_neg hto, hv] at h

theorem connectLoop_dropReserved (ks : List (String × PyObj)) :
    ∀ st st' : ConnState, connectLoop st ks = .ok st' →
      ∀ a t : Int, connectLoop ⟨st.cstring, a, t, false⟩ (dropReserved ks)
        = .ok ⟨st'.cstring, a, t, false⟩ := by
  induction ks with
  | nil =>
    intro st st' h a t
    simp only [connectLoop] at h
    cases h
    simp [dropReserved, connectLoop]
  | cons kv rest ih =>
    intro st st' h a t
    simp only [connectLoop] at h
    by_cases hac : kv.1 = "autocommit"
    · cases hT : PyObject_IsTrue kv.2 <;>
        simp only [connectStep, if_pos hac, hT] at h <;>
        · have := ih _ _ h a t
          simpa [dropReserved, if_pos (Or.inl hac)] using this
    · by_cases hto : kv.1 = "timeout"
      · cases hL : PyLong_AsLong kv.2 with
        | none => simp [connectStep, if_neg hac, if_pos hto, hL] at h
        | some n =>
          simp only [connectStep, if_neg hac, if_pos hto, hL] at h
          by_cases herr : st.err
          · simp [herr] at h
          · simp only [herr, Bool.false_eq_true, if_false] at h
            have := ih _ _ h a t
            simpa [dropReserved, if_pos (Or.inr hto)] using this
      · cases hv : kv.2 with
        | str v =>
          simp only [connectStep, if_neg hac, if_neg hto, hv] at h
          have := ih _ _ h a t
          have hnr : ¬(kv.1 = "autocommit" ∨ kv.1 = "timeout") := by
            simp [hac, hto]
          simp only [dropReserved, if_neg hnr, connectLoop, connectStep,
            if_neg hac, if_neg hto, hv]
          exact this
        | pybool b => simp [connectStep, if_neg hac, if_neg hto, hv] at h
        | int n => simp [connectStep, if_neg hac, if_neg hto, hv] at h
        | exotic t' l => simp [connectStep, if_neg hac, if_neg hto, hv] at h

theorem append3_ne_empty (a m b : String) (hm : m.length ≠ 0) :
    a ++ m ++ b ≠ "" := by
  intro h
  have h2 := congrArg String.length h
  simp only [String.length_append, String.length_empty] at h2
  omega

theorem joinSemi_glue (a b : String) (l : List String) :
    joinSemi ((a ++ ";" ++ b) :: l) = a ++ ";" ++ joinSemi (b :: l) := by
  cases l with
  | nil => simp [joinSemi]
  | cons c l' => simp [joinSemi, String.append_assoc]

theorem appendFrags_eq_joinSemi : ∀ (frags : List String) (init : String),
    (∀ f ∈ frags, f ≠ "") →
    appendFrags init frags = joinSemi ((if init = "" then [] else [init]) ++ frags) := by
  intro frags
  induction frags with
  | nil =>
    intro init hne
    by_cases hinit : init = "" <;> simp [appendFrags, joinSemi, hinit]
  | cons f rest ih =>
    intro init hne
    have hf : f ≠ "" := hne f (by simp)
    have hrest : ∀ g ∈ rest, g ≠ "" := fun g hg => hne g (by simp [hg])
    by_cases hinit : init = ""
    · subst hinit
      have h1 : appendFrags "" (f :: rest) = appendFrags f rest := by
        simp [appendFrags]
      rw [h1, ih f hrest]
      simp [if_neg hf]
    · simp only [appendFrags, if_neg hinit]
      rw [ih _ hrest]
      have hne2 : init ++ ";" ++ f ≠ "" := append3_ne_empty init ";" f (by decide)
      simp only [if_neg hne2, if_neg hinit, List.cons_append, List.nil_append,
        List.singleton_append]
      rw [joinSemi_glue]
      cases rest <;> simp [joinSemi]

theorem mod_connect_ok_inv (args : List PyObj) (kwargs : List (String × PyObj))
    (h : Bool) (r : ConnectRequest)
    (hok : (mod_connect args kwargs h).result = .ok r) :
    ∃ init st, argsInit args = .ok init ∧
      connectLoop ⟨init, 0, 0, false⟩ kwargs = .ok st ∧
      st.cstring ≠ "" ∧
      r = ⟨st.cstring, st.fAutoCommit != 0, st.timeout⟩ := by
  unfold mod_connect at hok
  split at hok
  next e heq => exact absurd hok (by simp)
  next init heq =>
    split at hok
    next e' heq2 => exact absurd hok (by simp)
    next st heq2 =>
      split at hok
      next hc => exact absurd hok (by simp)
      next hc =>
        simp only [Except.ok.injEq] at hok
        exact ⟨init, st, heq, heq2, hc, hok.symm⟩

theorem mod_connect_ok_intro (args : List PyObj) (kwargs : List (String × PyObj))
    (h : Bool) (init : String) (st : ConnState)
    (h1 : argsInit args = .ok init)
    (h2 : connectLoop ⟨init, 0, 0, false⟩ kwargs = .ok st)
    (h3 : st.cstring ≠ "") :
    (mod_connect args kwargs h).result
      = .ok ⟨st.cstring, st.fAutoCommit != 0, st.timeout⟩ := by
  simp only [mod_connect, h1, h2, if_neg h3]

theorem fragStrings_ne_empty (ks : List (String × PyObj)) :
    ∀ f ∈ fragStrings ks, f ≠ "" := by
  induction ks with
  | nil => simp [fragStrings]
  | cons kv rest ih =>
    intro f hf
    by_cases hac : kv.1 = "autocommit"
    · rw [fragStrings, if_pos hac] at hf
      exact ih f hf
    · by_cases hto : kv.1 = "timeout"
      · rw [fragStrings, if_neg hac, if_pos hto] at hf
        exact ih f hf
      · rw [fragStrings, if_neg hac, if_neg hto] at hf
        cases hv : kv.2 with
        | str v =>
          rw [hv] at hf
          rcases List.mem_cons.mp hf with hfe | hfm
          · rw [hfe]
            exact append3_ne_empty _ "=" _ (by decide)
          · exact ih f hfm
        | pybool b => rw [hv] at hf; exact ih f hf
        | int n => rw [hv] at hf; exact ih f hf
        | exotic t l => rw [hv] at hf; exact ih f hf

theorem fragStrings_map_str (ks : List (String × String))
    (hnr : ∀ kv ∈ ks, kv.1 ≠ "autocommit" ∧ kv.1 ≠ "timeout") :
    fragStrings (ks.map (fun kv => (kv.1, PyObj.str kv.2))) = ks.map mkFrag := by
  induction ks with
  | nil => rfl
  | cons kv rest ih =>
    have h1 := hnr kv (List.mem_cons_self _ _)
    have h2 := ih (fun kv' h' => hnr kv' (List.mem_cons_of_mem _ h'))
    simp only [List.map_cons, fragStrings, if_neg h1.1, if_neg h1.2]
    rw [h2]
    rfl

theorem acFold_append (l1 l2 : List (String × PyObj)) (a : Int) :
    acFold a (l1 ++ l2) = acFold (acFold a l1) l2 := by
  induction l1 generalizing a with
  | nil => rfl
  | cons kv rest ih => simp [acFold, ih]

theorem acFold_no_ac (l : List (String × PyObj))
    (h : ∀ kv ∈ l, kv.1 ≠ "autocommit") (a : Int) : acFold a l = a := by
  induction l with
  | nil => rfl
  | cons kv rest ih =>
    have h1 : kv.1 ≠ "autocommit" := h kv (List.mem_cons_self _ _)
    rw [acFold, acUpdate, if_neg h1]
    exact ih (fun kv' h' => h kv' (List.mem_cons_of_mem _ h'))

theorem connectLoop_reserved_only (ks : List (String × PyObj))
    (hres : ∀ kv ∈ ks,
      (kv.1 = "autocommit" ∧ (PyObject_IsTrue kv.2).isSome)
        ∨ (kv.1 = "timeout" ∧ (PyLong_AsLong kv.2).isSome)) :
    ∀ st : ConnState, st.err = false →
      ∃ st', connectLoop st ks = .ok st'
        ∧ st'.cstring = st.cstring ∧ st'.err = false := by
  induction ks with
  | nil =>
    intro st herr
    exact ⟨st, rfl, rfl, herr⟩
  | cons kv rest ih =>
    intro st herr
    obtain ⟨c, a, t, e⟩ := st
    replace herr : e = false := herr
    subst herr
    have hrest := fun kv' h' => hres kv' (List.mem_cons_of_mem _ h')
    rcases hres kv (List.mem_cons_self _ _) with ⟨hac, hT⟩ | ⟨hto, hL⟩
    · rcases Option.isSome_iff_exists.mp hT with ⟨b, hb⟩
      obtain ⟨st', hl, hc, he⟩ := ih hrest ⟨c, if b then 1 else 0, t, false⟩ rfl
      refine ⟨st', ?_, hc, he⟩
      simp only [connectLoop, connectStep, if_pos hac, hb]
      exact hl
    · rcases Option.isSome_iff_exists.mp hL with ⟨n, hn⟩
      have hac : kv.1 ≠ "autocommit" := by
        intro hcontra
        rw [hcontra] at hto
        exact absurd hto (by decide)
      obtain ⟨st', hl, hc, he⟩ := ih hrest ⟨c, a, n, false⟩ rfl
      refine ⟨st', ?_, hc, he⟩
      simp only [connectLoop, connectStep, if_neg hac, if_pos hto, hn,
        Bool.false_eq_true, if_false]
      exact hl

/-! ## Claim theorems -/

/-- C1 (counterexample): the claim predicts that the assembled connection
string is the positional string followed by the keyword fragments, all
joined with `;`.  A call supplying the empty positional string `""` and the
keyword `driver="foo"` succeeds with the string `"driver=foo"`, whereas the
claimed assembly yields `";driver=foo"` — the code inserts no separator
after an empty positional string because separators are driven by the
accumulated string being non-empty, not by whether a positional argument
was supplied. -/
theorem C1_empty_positional_counterexample :
    (mod_connect [PyObj.str ""] [("driver", PyObj.str "foo")] true).result
        = .ok ⟨"driver=foo", false, 0⟩
    ∧ claimedConnectionString (some "") [("driver", "foo")] = ";driver=foo"
    ∧ ("driver=foo" : String) ≠ ";driver=foo" := by
  refine ⟨by decide, by decide, by decide⟩

/-- C1 (amended): for every successful call whose keyword set contains no
`autocommit` or `timeout` key and whose keyword values are all strings, the
assembled connection string is the positional string — provided it is
non-empty; an empty positional string contributes nothing — followed by one
remapped `key=value` fragment per keyword in input order, all joined
with `;`. -/
theorem C1_connection_string_assembly (pos : Option String)
    (ks : List (String × String)) (h : Bool) (r : ConnectRequest)
    (hnr : ∀ kv ∈ ks, kv.1 ≠ "autocommit" ∧ kv.1 ≠ "timeout")
    (hok : (mod_connect (pos.toList.map PyObj.str)
        (ks.map (fun kv => (kv.1, PyObj.str kv.2))) h).result = .ok r) :
    r.cstring = joinSemi (posPieces pos ++ ks.map mkFrag) := by
  obtain ⟨init, st, hinit, hloop, hc, hr⟩ := mod_connect_ok_inv _ _ _ _ hok
  have hcs : st.cstring = appendFrags init (fragStrings
      (ks.map (fun kv => (kv.1, PyObj.str kv.2)))) :=
    connectLoop_ok_cstring _ _ _ hloop
  rw [fragStrings_map_str ks hnr] at hcs
  have hfr : ∀ f ∈ ks.map mkFrag, f ≠ "" := by
    intro f hf
    obtain ⟨kv, _, rfl⟩ := List.mem_map.mp hf
    exact append3_ne_empty _ "=" _ (by decide)
  have hpp : (if init = "" then ([] : List String) else [init]) = posPieces pos := by
    cases pos with
    | none =>
      have hii : init = "" := by
        have : argsInit [] = .ok init := hinit
        simpa [argsInit] using this.symm
      simp [posPieces, hii]
    | some p =>
      have hii : init = p := by
        have : argsInit [PyObj.str p] = .ok init := hinit
        simpa [argsInit] using this.symm
      simp [posPieces, hii]
  have : r.cstring = st.cstring := by rw [hr]
  rw [this, hcs, appendFrags_eq_joinSemi (ks.map mkFrag) init hfr, hpp]

/-- C1 (witness). -/
theorem C1_connection_string_assembly_witness :
    (mod_connect [PyObj.str "DSN=x"]
        ([("user", "me"), ("driver", "foo")].map (fun kv => (kv.1, PyObj.str kv.2)))
        true).result
      = .ok ⟨"DSN=x;uid=me;driver=foo", false, 0⟩
    ∧ (⟨"DSN=x;uid=me;driver=foo", false, 0⟩ : ConnectRequest).cstring
      = joinSemi (posPieces (some "DSN=x")
          ++ [("user", "me"), ("driver", "foo")].map mkFrag) := by
  refine ⟨by decide, ?_⟩
  exact C1_connection_string_assembly (some "DSN=x") [("user", "me"), ("driver", "foo")]
    true ⟨"DSN=x;uid=me;driver=foo", false, 0⟩ (by decide) (by decide)

/-- C2: in every successful call, the `autocommit` and `timeout` keywords
contribute no fragment to the assembled connection string — the string is
the one produced by the same call with those keywords removed — and the
coerced values are stored in the request: `autocommit` holds the truthiness
of the last `autocommit` value (`acFold` is exactly that coercion, with the
`-1` error sentinel on a failed truth test) and `timeout` the integer
coercion of the last `timeout` value. -/
theorem C2_reserved_keywords_extracted (args : List PyObj)
    (kwargs : List (String × PyObj)) (h : Bool) (r : ConnectRequest)
    (hok : (mod_connect args kwargs h).result = .ok r) :
    (∃ r', (mod_connect args (dropReserved kwargs) h).result = .ok r'
        ∧ r'.cstring = r.cstring ∧ r'.autocommit = false ∧ r'.timeout = 0)
    ∧ r.autocommit = (acFold 0 kwargs != 0)
    ∧ r.timeout = toFold 0 kwargs := by
  obtain ⟨init, st, hinit, hloop, hc, hr⟩ := mod_connect_ok_inv _ _ _ _ hok
  have hfields := connectLoop_ok_fields _ _ _ hloop
  have hdrop : connectLoop ⟨init, 0, 0, false⟩ (dropReserved kwargs)
      = .ok ⟨st.cstring, 0, 0, false⟩ :=
    connectLoop_dropReserved _ _ _ hloop 0 0
  refine ⟨⟨⟨st.cstring, (0 : Int) != 0, 0⟩,
    mod_connect_ok_intro args (dropReserved kwargs) h init ⟨st.cstring, 0, 0, false⟩
      hinit hdrop hc, ?_, rfl, rfl⟩, ?_, ?_⟩
  · rw [hr]
  · rw [hr]
    have h1 : st.fAutoCommit = acFold 0 kwargs := hfields.1
    simp only [h1]
  · rw [hr]
    exact hfields.2

/-- C2 (witness). -/
theorem C2_reserved_keywords_extracted_witness :
    ∃ r', (mod_connect [PyObj.str "DSN=x"]
        (dropReserved [("autocommit", PyObj.pybool true), ("timeout", PyObj.int 30),
          ("user", PyObj.str "me")]) true).result = .ok r'
      ∧ r'.cstring = (⟨"DSN=x;uid=me", true, 30⟩ : ConnectRequest).cstring
      ∧ r'.autocommit = false ∧ r'.timeout = 0 :=
  (C2_reserved_keywords_extracted [PyObj.str "DSN=x"]
    [("autocommit", PyObj.pybool true), ("timeout", PyObj.int 30),
      ("user", PyObj.str "me")] true ⟨"DSN=x;uid=me", true, 30⟩ (by decide)).1

/-- C3 (counterexample): the claim predicts that with a one-character null
group separator the resulting separator is "`,` if the decimal point is
`.`, else `.`".  For a locale reporting decimal point `x` (neither `.` nor
`,`) and a null group separator, the code resolves the separator to `,` —
the ternary in the code tests the decimal point against `,`, not against
`.` — contradicting the claimed `.`. -/
theorem C3_group_separator_counterexample :
    (some "\x00").bind oneChar = some '\x00'
    ∧ (init_locale_info (some ⟨some "x", some "\x00", none⟩)).chDecimal = 'x'
    ∧ (init_locale_info (some ⟨some "x", some "\x00", none⟩)).chGroupSeparator = ','
    ∧ (init_locale_info (some ⟨some "x", some "\x00", none⟩)).chGroupSeparator
      ≠ (if (init_locale_info (some ⟨some "x", some "\x00", none⟩)).chDecimal = '.'
          then ',' else '.') := by
  refine ⟨by decide, by decide, by decide, by decide⟩

/-- C3 (amended): if the host locale reports a one-character group separator
equal to the null character, the resulting group separator is `.` when the
resolved decimal point is `,`, and `,` otherwise (in particular `,` for a
decimal point of `.`, and also `,` for any other decimal-point
character). -/
theorem C3_group_separator_fallback (r : LocaleConv)
    (hsep : r.thousands_sep.bind oneChar = some '\x00') :
    (init_locale_info (some r)).chGroupSeparator
      = (if (init_locale_info (some r)).chDecimal = ',' then '.' else ',') := by
  cases hd : r.decimal_point.bind oneChar with
  | none =>
    cases hc : r.currency_symbol.bind oneChar with
    | none => simp [init_locale_info, hd, hsep, hc, defaultLocaleState]
    | some c => simp [init_locale_info, hd, hsep, hc, defaultLocaleState]
  | some d =>
    cases hc : r.currency_symbol.bind oneChar with
    | none => simp [init_locale_info, hd, hsep, hc, defaultLocaleState]
    | some c => simp [init_locale_info, hd, hsep, hc, defaultLocaleState]

/-- C3 (witness). -/
theorem C3_group_separator_fallback_witness :
    (init_locale_info (some ⟨some ",", some "\x00", none⟩)).chGroupSeparator
      = (if (init_locale_info (some ⟨some ",", some "\x00", none⟩)).chDecimal = ','
          then '.' else ',') :=
  C3_group_separator_fallback ⟨some ",", some "\x00", none⟩ (by decide)

/-- C4 (code bug): when construction of the fourth exception class
(`DatabaseError`, index 3) fails, `CreateExceptions` returns failure and the
module initializer returns immediately (`if (!CreateExceptions()) return 0;`)
without running `ErrorCleanup`, so the references to the three classes
already constructed (`Error`, `Warning`, `InterfaceError`) remain held — the
registry does not unwind as the claim requires. -/
theorem C4_no_unwind_on_failure :
    (PyInit_excPhase (some 3)).1 = false
    ∧ (PyInit_excPhase (some 3)).2 = [.Error, .Warning, .InterfaceError]
    ∧ (PyInit_excPhase (some 3)).2 ≠ [] := by
  refine ⟨by decide, by decide, by decide⟩

/-- C5: a call supplying no positional string and only well-behaved control
keywords (hence no connection-string fragments) fails with the generic
argument failure carrying the message "no connection information was
passed", and the environment handle is not allocated and no native call is
made during that call. -/
theorem C5_no_connection_information (kwargs : List (String × PyObj)) (h : Bool)
    (hres : ∀ kv ∈ kwargs,
      (kv.1 = "autocommit" ∧ (PyObject_IsTrue kv.2).isSome)
        ∨ (kv.1 = "timeout" ∧ (PyLong_AsLong kv.2).isSome)) :
    mod_connect [] kwargs h
      = ⟨.error (.typeError "no connection information was passed"), false⟩ := by
  obtain ⟨st', hloop, hc, _⟩ :=
    connectLoop_reserved_only kwargs hres ⟨"", 0, 0, false⟩ rfl
  simp only [mod_connect, argsInit, hloop, hc, if_pos]

/-- C5 (witness). -/
theorem C5_no_connection_information_witness :
    mod_connect [] [("autocommit", PyObj.pybool true), ("timeout", PyObj.int 30)] true
      = ⟨.error (.typeError "no connection information was passed"), false⟩ :=
  C5_no_connection_information
    [("autocommit", PyObj.pybool true), ("timeout", PyObj.int 30)] true (by decide)

/-- C6: a driver manager returning success for two fetches and then
no-more-data yields a two-entry name-to-description mapping with no failure;
a driver manager returning an error status on the first fetch yields a
failure naming the failing native operation (`SQLDataSources`) and carrying
the non-empty diagnostic text retrieved via the get-diagnostic call. -/
theorem C6_datasources_enumeration (n1 d1 n2 d2 : String) (hne : n1 ≠ n2)
    (diag : DiagRec) (hdiag : diag.message ≠ "") :
    mod_datasources [⟨.success, n1, d1⟩, ⟨.success, n2, d2⟩, ⟨.noData, "", ""⟩] diag
        = some (.ok [(n1, d1), (n2, d2)])
    ∧ ∃ op txt, mod_datasources [⟨.sqlError, "", ""⟩] diag = some (.error (op, txt))
        ∧ op = "SQLDataSources" ∧ txt ≠ "" := by
  constructor
  · simp [mod_datasources, datasourcesLoop, dictInsert, SQL_SUCCEEDED, hne]
  · exact ⟨"SQLDataSources", diag.message,
      by simp [mod_datasources, datasourcesLoop, SQL_SUCCEEDED, RaiseErrorFromHandle],
      rfl, hdiag⟩

/-- C6 (witness). -/
theorem C6_datasources_enumeration_witness :
    mod_datasources [⟨.success, "A", "da"⟩, ⟨.success, "B", "db"⟩, ⟨.noData, "", ""⟩]
        ⟨"HY000", 1, "boom"⟩
      = some (.ok [("A", "da"), ("B", "db")])
    ∧ ∃ op txt, mod_datasources [⟨.sqlError, "", ""⟩] ⟨"HY000", 1, "boom"⟩
        = some (.error (op, txt))
        ∧ op = "SQLDataSources" ∧ txt ≠ "" :=
  C6_datasources_enumeration "A" "da" "B" "db" (by decide) ⟨"HY000", 1, "boom"⟩ (by decide)

/-- C7: in the registered taxonomy, `DataError` is a subclass of
`DatabaseError` and transitively of `Error`, `Warning` is not a subclass of
`Error` (the two are siblings under the root exception type), the table has
exactly ten classes, and every class sits at depth at most two below the
root — the fixed two-level shape. -/
theorem C7_exception_taxonomy :
    isSubclass .DataError .DatabaseError = true
    ∧ isSubclass .DataError .Error = true
    ∧ isSubclass .Warning .Error = false
    ∧ excParent .Warning = .root ∧ excParent .Error = .root
    ∧ aExcInfos.length = 10
    ∧ (∀ e : ExcName, e ∈ allExcNames)
    ∧ allExcNames.all (fun e => decide (rootDist e ≤ 2)) = true := by
  refine ⟨by decide, by decide, by decide, by decide, by decide, by decide, ?_, by decide⟩
  intro e
  cases e <;> simp [allExcNames]

/-- C9: at environment allocation, the pooling attribute is set on the
driver manager exactly when the module-level `pooling` attribute is
identically the `True` singleton; any other object — including the truthy
integer `1` — leaves pooling unset. -/
theorem C9_pooling_identity_check (v : PyObj) (drv : EnvDriver) :
    (EnvCall.setPooling ∈ (AllocateEnv v drv).2 ↔ v = PyObj.pybool true)
    ∧ EnvCall.setPooling ∉ (AllocateEnv (PyObj.int 1) drv).2 := by
  obtain ⟨sp, al, sv⟩ := drv
  constructor
  · constructor
    · intro hmem
      by_cases hv : v = PyObj.pybool true
      · exact hv
      · exfalso
        cases sp <;> cases al <;> cases sv <;> simp [AllocateEnv, hv] at hmem
    · intro hv
      subst hv
      cases sp <;> cases al <;> cases sv <;> simp [AllocateEnv]
  · cases sp <;> cases al <;> cases sv <;> simp [AllocateEnv]

/-- C9 (witness). -/
theorem C9_pooling_identity_check_witness :
    (EnvCall.setPooling ∈ (AllocateEnv (PyObj.pybool true) ⟨true, true, true⟩).2
      ↔ PyObj.pybool true = PyObj.pybool true)
    ∧ EnvCall.setPooling ∉ (AllocateEnv (PyObj.int 1) ⟨true, true, true⟩).2 :=
  C9_pooling_identity_check (PyObj.pybool true) ⟨true, true, true⟩

/-- C10 (counterexample): the claim says a failed truth test on the
`autocommit` value is never propagated.  But the failure leaves the thread's
error indicator set, and a `timeout` keyword processed afterwards checks
`PyErr_Occurred` after its own coercion and returns failure — so
`connect("DSN=x", autocommit=<unruly object>, timeout=5)` fails instead of
proceeding. -/
theorem C10_pending_error_counterexample :
    mod_connect [PyObj.str "DSN=x"]
        [("autocommit", PyObj.exotic none none), ("timeout", PyObj.int 5)] true
      = ⟨.error .pending, false⟩ := by decide

/-- C10 (amended): if the truth test of the `autocommit` value fails, the
builder itself does not check the `-1` sentinel: whenever the call
nevertheless succeeds (no later `timeout` keyword observes the pending
error) the request proceeds with autocommit treated as enabled, the sentinel
being nonzero. -/
theorem C10_autocommit_error_swallowed (args : List PyObj)
    (pre post : List (String × PyObj)) (v : PyObj) (h : Bool) (r : ConnectRequest)
    (hv : PyObject_IsTrue v = none)
    (hpost : ∀ kv ∈ post, kv.1 ≠ "autocommit")
    (hok : (mod_connect args (pre ++ ("autocommit", v) :: post) h).result = .ok r) :
    r.autocommit = true := by
  obtain ⟨init, st, hinit, hloop, hc, hr⟩ := mod_connect_ok_inv _ _ _ _ hok
  have hfields := connectLoop_ok_fields _ _ _ hloop
  have hac : st.fAutoCommit = -1 := by
    rw [hfields.1, acFold_append]
    have hstep : acFold (acFold 0 pre) (("autocommit", v) :: post)
        = acFold (-1) post := by
      simp [acFold, acUpdate, hv]
    rw [hstep, acFold_no_ac post hpost]
  rw [hr]
  simp [hac]

/-- C10 (witness). -/
theorem C10_autocommit_error_swallowed_witness :
    (mod_connect [PyObj.str "DSN=x"] [("autocommit", PyObj.exotic none none)] true).result
      = .ok ⟨"DSN=x", true, 0⟩
    ∧ (⟨"DSN=x", true, 0⟩ : ConnectRequest).autocommit = true := by
  refine ⟨by decide, ?_⟩
  exact C10_autocommit_error_swallowed [PyObj.str "DSN=x"] [] []
    (PyObj.exotic none none) true ⟨"DSN=x", true, 0⟩ rfl (by simp) (by decide)

end Pyodbc
